import Mathlib

/-!
Verification development for the scaryfast-shopify-template repository.

`src/server.js` holds three concatenated Express server variants.  The
embedding below translates the pure computations (pricing, payload
construction, JSON-extraction fallback) directly, and models each HTTP
handler as a function of its request body plus one oracle per external
HTTP call (Shopify fetch/write, Printify, OpenAI).  An oracle value
`Except.error e` models the corresponding `axios` / OpenAI call throwing
with message `e`; `Except.ok` models a successful response body.
JavaScript numbers are modelled as exact rationals.  Each handler also
returns the number of external calls it performed, so "issues zero
external calls" is expressible.
-/

namespace ScaryFast

/-! ## Pricing helper (server.js, third variant: computeRetailPrice) -/

/-- Model of the JavaScript builtin `Math.round`: rounds half toward
positive infinity, i.e. `Math.round(x) = Math.floor(x + 0.5)`. -/
def jsRound (q : ℚ) : ℤ := ⌊q + 1/2⌋

/-- The pricing configuration object destructured by `computeRetailPrice`
(source defaults: inflationRate 0.05, taxRate 0.07, margin 0.35). -/
structure PricingCfg where
  inflationRate : ℚ
  taxRate : ℚ
  margin : ℚ
deriving Repr, DecidableEq

/-- Translation of `computeRetailPrice(cost, ...)` from server.js:
`costWithInflation = cost * (1 + inflationRate)`;
`markup = costWithInflation * margin`;
`preTax = costWithInflation + markup`;
`retail = preTax * (1 + taxRate)`;
`return Math.round(retail * 100) / 100`. -/
def computeRetailPrice (cost : ℚ) (cfg : PricingCfg) : ℚ :=
  let costWithInflation := cost * (1 + cfg.inflationRate)
  let markup := costWithInflation * cfg.margin
  let preTax := costWithInflation + markup
  let retail := preTax * (1 + cfg.taxRate)
  (jsRound (retail * 100) : ℚ) / 100

/-- Reference definition following the spec's words (section 4.1):
`inflated = baseCost * (1 + inflationRate)`;
`withMargin = inflated * (1 + margin)`;
`retail = withMargin * (1 + taxRate)`;
rounded to 2 decimal places, nearest cent, half-up
(half-up = round half toward positive infinity). -/
def specRetailPrice (baseCost : ℚ) (cfg : PricingCfg) : ℚ :=
  let inflated := baseCost * (1 + cfg.inflationRate)
  let withMargin := inflated * (1 + cfg.margin)
  let retail := withMargin * (1 + cfg.taxRate)
  ((⌊retail * 100 + 1/2⌋ : ℤ) : ℚ) / 100

/-- JavaScript `a || b` for an optional number `a`: `undefined` and `0`
are falsy, every other number is truthy. -/
def jsOrQ (a : Option ℚ) (b : ℚ) : ℚ :=
  match a with
  | none => b
  | some v => if v = 0 then b else v

/-! ## Data model: seeds and generated products -/

/-- A generation seed (`brand`, `theme`, `product_type`, `style_notes`);
`product_type` is optional because handlers read it with a
`seed.product_type || "Apparel"` style default. -/
structure Seed where
  brand : String
  theme : String
  product_type : Option String
  style_notes : String
deriving Repr, DecidableEq

/-- One entry of `variant_options` in the generated JSON:
`(option1, values)`. -/
structure VariantOption where
  option1 : String
  values : List String
deriving Repr, DecidableEq

/-- The structured product object produced by `generateProductViaOpenAI`
(fields the handlers actually read; every field may be absent in the
model since the AI output is unvalidated JSON). -/
structure Gen where
  title : Option String
  short_description : Option String
  long_description : Option String
  price_base : Option ℚ
  recommended_price : Option ℚ
  tags : List String
  variant_options : List VariantOption
deriving Repr, DecidableEq

/-- JavaScript `a || b` for an optional string: `undefined` and the empty
string are falsy. -/
def jsOrS (a : Option String) (b : String) : String :=
  match a with
  | none => b
  | some s => if s = "" then b else s

/-- JavaScript `a || b` where both operands are optional strings: the
result is still absent when both are falsy. -/
def jsOrOS (a b : Option String) : Option String :=
  match a with
  | none => b
  | some s => if s = "" then b else some s

/-- Translation of `generateDemoSeeds()` from server.js (third variant):
the fixed list of 20 demo seeds. -/
def generateDemoSeeds : List Seed :=
  let base : Seed :=
    { brand := "Scary Fast"
      theme := "license-plate / DMV / Louisiana / street speed aesthetic"
      product_type := none
      style_notes := "minimal, reflective ink, black/metallic palette, car/ID motifs" }
  [ { base with product_type := some "Hat", style_notes := base.style_notes ++ ", snapback license plate embroidery" },
    { base with product_type := some "Hat", style_notes := base.style_notes ++ ", dad cap 'SPEED LIMIT NONE'" },
    { base with product_type := some "Beanie", style_notes := base.style_notes ++ ", knit patch" },
    { base with product_type := some "T-Shirt", style_notes := base.style_notes ++ ", reflective logo chest" },
    { base with product_type := some "T-Shirt", style_notes := base.style_notes ++ ", highway photo-real car graphic" },
    { base with product_type := some "T-Shirt", style_notes := base.style_notes ++ ", Louisiana ID mockup" },
    { base with product_type := some "T-Shirt", style_notes := base.style_notes ++ ", 0-60 tachometer" },
    { base with product_type := some "Hoodie", style_notes := base.style_notes ++ ", Performance Club back print" },
    { base with product_type := some "Crewneck", style_notes := base.style_notes ++ ", embroidered FAST chest" },
    { base with product_type := some "Pullover", style_notes := base.style_notes ++ ", TURBO MODE glow print" },
    { base with product_type := some "Joggers", style_notes := base.style_notes ++ ", reflective side logo" },
    { base with product_type := some "Shorts", style_notes := base.style_notes ++ ", license plate side print" },
    { base with product_type := some "Track Pants", style_notes := base.style_notes ++ ", side strip branding" },
    { base with product_type := some "Windbreaker", style_notes := base.style_notes ++ ", reflective back text" },
    { base with product_type := some "Jacket", style_notes := base.style_notes ++ ", varsity license-plate patches" },
    { base with product_type := some "Keychain", style_notes := base.style_notes ++ ", metal license-plate tag" },
    { base with product_type := some "Stickers", style_notes := base.style_notes ++ ", vinyl pack" },
    { base with product_type := some "Lanyard", style_notes := base.style_notes ++ ", repeating ID design" },
    { base with product_type := some "Jersey", style_notes := base.style_notes ++ ", mesh racing jersey 00 number" },
    { base with product_type := some "Limited Hoodie", style_notes := base.style_notes ++ ", full-size Louisiana plate back print" } ]

/-! ## Shopify payloads and product creation -/

/-- A variant entry of a Shopify product payload (`option1`, `price`).
The source serialises the price either as a number or via `toFixed` /
`toString`; the model keeps the exact rational value. -/
structure ShopifyVariant where
  option1 : String
  price : ℚ
deriving Repr, DecidableEq

/-- The intermediate `productData` object built by `/generate-and-create`
and the first `/bulk-generate` handler and passed to
`createShopifyProduct`. -/
structure ProductData where
  title : Option String
  long_description : Option String
  tags : List String
  price : ℚ
  product_type : Option String
  variants : Option (List ShopifyVariant)
  images : List String
deriving Repr, DecidableEq

/-- The `product` payload object POSTed by `createShopifyProduct`.
Note there is no `status` field in the source payload, hence the model
carries `status : Option String := none`: Shopify then applies its
default product status (active/published). -/
structure CreatePayload where
  title : Option String
  body_html : Option String
  vendor : String
  product_type : String
  tags : String
  status : Option String
  variants : List ShopifyVariant
  images : List String
deriving Repr, DecidableEq

/-- Payload construction inside `createShopifyProduct(productData)`:
title, `body_html = long_description`, vendor "Scary Fast",
`product_type = productData.product_type || "Apparel"`,
`tags = (productData.tags || []).join(',')`,
`variants = productData.variants || [ one-size default ]`,
`images = (productData.images || []).map(url => (src: url))`.
No `status` field is set. -/
def createShopifyProductPayload (pd : ProductData) : CreatePayload :=
  { title := pd.title
    body_html := pd.long_description
    vendor := "Scary Fast"
    product_type := jsOrS pd.product_type "Apparel"
    tags := String.intercalate "," pd.tags
    status := none
    variants := pd.variants.getD [⟨"One Size", pd.price⟩]
    images := pd.images }

/-- A product object as returned inside a Shopify create response. -/
structure CreatedProduct where
  id : Nat
  title : String
deriving Repr, DecidableEq

/-- Body of a Shopify product-create response (`resp.data`): the
`product` field may be absent (`shopResp.data && shopResp.data.product`). -/
structure ShopCreateResp where
  product : Option CreatedProduct
deriving Repr, DecidableEq

/-- The `safeProduct.product` payload built by the second
`/bulk-generate` handler: minimal fields plus `status: "draft"`,
`tags` capped via `slice(0,20)`, a single "Default Title" variant with
`(retailPrice || 39.99).toString()`. -/
structure SafePayload where
  title : String
  body_html : String
  vendor : String
  product_type : String
  status : Option String
  tags : List String
  variants : List ShopifyVariant
deriving Repr, DecidableEq

/-- Translation of the `safeProduct` construction in the second
`/bulk-generate` handler (JS string interpolation of an undefined
`seed.product_type` yields the text "undefined"). -/
def safeProduct (gen : Gen) (seed : Seed) (retailPrice : ℚ) : SafePayload :=
  { title := jsOrS gen.title (seed.product_type.getD "undefined" ++ " - Scary Fast")
    body_html := jsOrS gen.long_description (jsOrS gen.short_description "Scary Fast product")
    vendor := "Scary Fast"
    product_type := jsOrS seed.product_type "Apparel"
    status := some "draft"
    tags := gen.tags.take 20
    variants := [⟨"Default Title", jsOrQ (some retailPrice) (3999/100)⟩] }

/-! ## The first /bulk-generate handler (server.js third variant,
registered first on the app; no per-item error handling, no count cap) -/

/-- The pricing environment a handler reads from `process.env`
(INFLATION_RATE, SALES_TAX_RATE, PROFIT_MARGIN with defaults
0.05 / 0.07 / 0.35); passed as an explicit parameter here. -/
def envCfgDefaults : PricingCfg := ⟨5/100, 7/100, 35/100⟩

/-- The `productData` object built from a generated product by
`/generate-and-create` and (identically) by the first `/bulk-generate`
handler. -/
def buildProductData (gen : Gen) (seed : Seed) (retailPrice : ℚ) : ProductData :=
  { title := gen.title
    long_description := jsOrOS gen.long_description gen.short_description
    tags := gen.tags
    price := retailPrice
    product_type := jsOrS seed.product_type "Apparel" |> some
    variants :=
      some (if gen.variant_options.length ≠ 0 then
        ((gen.variant_options.headD ⟨"", []⟩).values.map fun v => ⟨v, retailPrice⟩)
      else [⟨"One Size", retailPrice⟩])
    images := [] }

/-- One `created` entry accumulated by the first `/bulk-generate`
handler. -/
structure Created1 where
  seed : Seed
  generated : Gen
  shopify : ShopCreateResp
deriving Repr, DecidableEq

/-- Response of the first `/bulk-generate` handler: HTTP 200 with
`created_count` and the `created` list, or HTTP 500 with the error
message from the outer catch. -/
inductive Bulk1Resp where
  | ok (created_count : Nat) (created : List Created1)
  | serverError (error : String)
deriving Repr, DecidableEq

/-- The body of a POST to `/bulk-generate`. -/
structure BulkBody where
  seeds : Option (List Seed)
  count : Option Nat
deriving Repr, DecidableEq

/-- The per-item loop of the first `/bulk-generate` handler.  There is no
try/catch inside the loop, so a failure of the OpenAI call or of the
Shopify write aborts the whole loop with that error.  `genO i` models the
OpenAI call for item `i`, `shopO i payload` the Shopify product POST. -/
def bulk1Loop (cfg : PricingCfg) (genO : Nat → Except String Gen)
    (shopO : Nat → CreatePayload → Except String ShopCreateResp) :
    Nat → List Seed → Except String (List Created1)
  | _, [] => .ok []
  | i, seed :: rest => do
    let gen ← genO i
    let retailPrice := jsOrQ gen.recommended_price
      (computeRetailPrice (jsOrQ gen.price_base 8) cfg)
    let productData := buildProductData gen seed retailPrice
    let shopResp ← shopO i (createShopifyProductPayload productData)
    let tail ← bulk1Loop cfg genO shopO (i + 1) rest
    .ok (⟨seed, gen, shopResp⟩ :: tail)

/-- The first `/bulk-generate` handler: uses `req.body.seeds` or the demo
seeds, ignores `req.body.count`, and wraps the whole loop in one
try/catch that turns any error into a single HTTP 500 response. -/
def bulkGenerate1 (body : BulkBody) (cfg : PricingCfg)
    (genO : Nat → Except String Gen)
    (shopO : Nat → CreatePayload → Except String ShopCreateResp) : Bulk1Resp :=
  let seeds := body.seeds.getD generateDemoSeeds
  match bulk1Loop cfg genO shopO 0 seeds with
  | .ok created => .ok created.length created
  | .error e => .serverError e

/-! ## The second /bulk-generate handler ("safe" variant: per-item
try/catch, count cap, draft status) -/

/-- One `results` entry of the second `/bulk-generate` handler. -/
structure SyncResult where
  seedIndex : Nat
  ok : Bool
  shopifyId : Option Nat
  title : Option String
  error : Option String
deriving Repr, DecidableEq

/-- `parseInt(req.body.count || 20, 10)`: an absent or zero (falsy)
count becomes the default 20. -/
def jsCount (c : Option Nat) : Nat :=
  match c with
  | none => 20
  | some n => if n = 0 then 20 else n

/-- Processing of one seed by the second `/bulk-generate` handler:
generation failure is caught and recorded (`OpenAI error: ...`), then the
price is computed, the `safeProduct` payload built, and the Shopify write
attempted with its own try/catch recording failure per item. -/
def bulk2Item (cfg : PricingCfg) (genO : Nat → Except String Gen)
    (shopO : Nat → SafePayload → Except String ShopCreateResp)
    (i : Nat) (seed : Seed) : SyncResult :=
  match genO i with
  | .error e => ⟨i, false, none, none, some ("OpenAI error: " ++ e)⟩
  | .ok gen =>
    let retailPrice := jsOrQ gen.recommended_price
      (computeRetailPrice (jsOrQ gen.price_base 8) cfg)
    match shopO i (safeProduct gen seed retailPrice) with
    | .ok resp =>
      ⟨i, true, resp.product.map (·.id), resp.product.map (·.title), none⟩
    | .error e => ⟨i, false, none, none, some e⟩

/-- The sequential per-item loop of the second `/bulk-generate` handler:
every item yields exactly one `SyncResult`, in input order. -/
def bulk2Loop (cfg : PricingCfg) (genO : Nat → Except String Gen)
    (shopO : Nat → SafePayload → Except String ShopCreateResp) :
    Nat → List Seed → List SyncResult
  | _, [] => []
  | i, seed :: rest =>
    bulk2Item cfg genO shopO i seed :: bulk2Loop cfg genO shopO (i + 1) rest

/-- The `results` array of the second `/bulk-generate` handler:
`runSeeds = seeds.slice(0, count)` with `count = parseInt(req.body.count
|| 20, 10)` and `seeds = req.body.seeds || generateDemoSeeds()`. -/
def bulk2Results (body : BulkBody) (cfg : PricingCfg)
    (genO : Nat → Except String Gen)
    (shopO : Nat → SafePayload → Except String ShopCreateResp) : List SyncResult :=
  bulk2Loop cfg genO shopO 0 ((body.seeds.getD generateDemoSeeds).take (jsCount body.count))

/-- Response of the second `/bulk-generate` handler: HTTP 200 with
`created_count = results.filter(r => r.ok).length` and `results`, or
HTTP 500 from the outer catch (unreachable in the model: every failable
step inside the loop is wrapped in its own try/catch). -/
inductive Bulk2Resp where
  | ok (created_count : Nat) (results : List SyncResult)
  | serverError (error : String)
deriving Repr, DecidableEq

/-- The second `/bulk-generate` handler. -/
def bulkGenerate2 (body : BulkBody) (cfg : PricingCfg)
    (genO : Nat → Except String Gen)
    (shopO : Nat → SafePayload → Except String ShopCreateResp) : Bulk2Resp :=
  let results := bulk2Results body cfg genO shopO
  .ok (results.filter (·.ok)).length results

/-! ## JSON values and the generation-response parsing step
(`generateProductViaOpenAI`, server.js third variant) -/

/-- JSON values, as produced by the JavaScript builtin `JSON.parse`. -/
inductive Json where
  | null
  | bool (b : Bool)
  | num (q : ℚ)
  | str (s : String)
  | arr (elems : List Json)
  | obj (fields : List (String × Json))

/-- JSON whitespace. -/
def isJsonWs (c : Char) : Bool := c == ' ' || c == '\n' || c == '\t' || c == '\r'

/-- Drop leading JSON whitespace. -/
def skipWs : List Char → List Char
  | [] => []
  | c :: cs => if isJsonWs c then skipWs cs else c :: cs

/-- Parse the body of a JSON string literal (after the opening quote),
returning the decoded characters and the remainder after the closing
quote.  Unicode escapes are outside the modelled subset. -/
def parseStringBody : List Char → Option (List Char × List Char)
  | [] => none
  | '"' :: rest => some ([], rest)
  | '\\' :: c :: rest =>
    let esc : Option Char :=
      if c = '"' then some '"'
      else if c = '\\' then some '\\'
      else if c = '/' then some '/'
      else if c = 'n' then some '\n'
      else if c = 't' then some '\t'
      else if c = 'r' then some '\r'
      else none
    match esc with
    | none => none
    | some e => (parseStringBody rest).map fun p => (e :: p.1, p.2)
  | c :: rest => (parseStringBody rest).map fun p => (c :: p.1, p.2)

/-- Split leading decimal digits off a character list. -/
def takeDigits : List Char → List Char × List Char
  | [] => ([], [])
  | c :: cs =>
    if c.isDigit then
      let p := takeDigits cs
      (c :: p.1, p.2)
    else ([], c :: cs)

/-- Numeric value of a digit string. -/
def digitsToNat (ds : List Char) : ℕ :=
  ds.foldl (fun a c => a * 10 + (c.toNat - 48)) 0

/-- Parse a JSON number (optional minus, integer part, optional
fraction; exponents are outside the modelled subset). -/
def parseNumber (cs : List Char) : Option (ℚ × List Char) :=
  let p := match cs with
    | '-' :: rest => (true, rest)
    | _ => (false, cs)
  let ds := takeDigits p.2
  if ds.1.isEmpty then none
  else
    let intPart : ℚ := (digitsToNat ds.1 : ℚ)
    match ds.2 with
    | '.' :: cs3 =>
      let fs := takeDigits cs3
      if fs.1.isEmpty then none
      else
        let q := intPart + (digitsToNat fs.1 : ℚ) / ((10 : ℚ) ^ fs.1.length)
        some (if p.1 then -q else q, fs.2)
    | _ => some (if p.1 then -intPart else intPart, ds.2)

mutual

/-- Fuel-indexed recursive-descent parser for one JSON value; models the
grammar accepted by `JSON.parse` (restricted to the subset above). -/
def parseValue : Nat → List Char → Option (Json × List Char)
  | 0, _ => none
  | fuel + 1, cs =>
    match skipWs cs with
    | [] => none
    | '"' :: rest => (parseStringBody rest).map fun p => (Json.str (String.mk p.1), p.2)
    | '{' :: rest => (parseMembers fuel rest true).map fun p => (Json.obj p.1, p.2)
    | '[' :: rest => (parseElems fuel rest true).map fun p => (Json.arr p.1, p.2)
    | 't' :: 'r' :: 'u' :: 'e' :: rest => some (Json.bool true, rest)
    | 'f' :: 'a' :: 'l' :: 's' :: 'e' :: rest => some (Json.bool false, rest)
    | 'n' :: 'u' :: 'l' :: 'l' :: rest => some (Json.null, rest)
    | c :: rest =>
      if c == '-' || c.isDigit then
        (parseNumber (c :: rest)).map fun p => (Json.num p.1, p.2)
      else none

/-- Members of a JSON object after the opening brace; `first` is true
when no member has been consumed yet (only then may the object close
immediately). -/
def parseMembers : Nat → List Char → Bool → Option (List (String × Json) × List Char)
  | 0, _, _ => none
  | fuel + 1, cs, first =>
    match skipWs cs with
    | '}' :: rest => if first then some ([], rest) else none
    | '"' :: rest =>
      match parseStringBody rest with
      | none => none
      | some (key, rest1) =>
        match skipWs rest1 with
        | ':' :: rest2 =>
          match parseValue fuel rest2 with
          | none => none
          | some (v, rest3) =>
            match skipWs rest3 with
            | ',' :: rest4 =>
              (parseMembers fuel rest4 false).map fun p =>
                ((String.mk key, v) :: p.1, p.2)
            | '}' :: rest4 => some ([(String.mk key, v)], rest4)
            | _ => none
        | _ => none
    | _ => none

/-- Elements of a JSON array after the opening bracket. -/
def parseElems : Nat → List Char → Bool → Option (List Json × List Char)
  | 0, _, _ => none
  | fuel + 1, cs, first =>
    match skipWs cs with
    | ']' :: rest => if first then some ([], rest) else none
    | cs1 =>
      match parseValue fuel cs1 with
      | none => none
      | some (v, rest) =>
        match skipWs rest with
        | ',' :: rest2 => (parseElems fuel rest2 false).map fun p => (v :: p.1, p.2)
        | ']' :: rest2 => some ([v], rest2)
        | _ => none

end

/-- Model of the JavaScript builtin `JSON.parse` (restricted to the
subset above): the whole input, up to surrounding whitespace, must be a
single JSON value, otherwise a SyntaxError is thrown (here: `none`). -/
def jsonParse (s : String) : Option Json :=
  match parseValue (s.data.length * 2 + 16) s.data with
  | some (v, rest) => if (skipWs rest).isEmpty then some v else none
  | none => none

/-- Index of the first occurrence of a character. -/
def firstIdxOf (c : Char) : List Char → Option Nat
  | [] => none
  | x :: xs => if x = c then some 0 else (firstIdxOf c xs).map (· + 1)

/-- Index of the last occurrence of a character. -/
def lastIdxOf (c : Char) (cs : List Char) : Option Nat :=
  (firstIdxOf c cs.reverse).map fun i => cs.length - 1 - i

/-- Model of `text.match` with the greedy regex used by
`generateProductViaOpenAI`: the match, when it exists, runs from the
first opening brace to the last closing brace of the text. -/
def jsonBraceMatch (s : String) : Option String :=
  match firstIdxOf '{' s.data, lastIdxOf '}' s.data with
  | some i, some j =>
    if i < j then some (String.mk ((s.data.drop i).take (j - i + 1))) else none
  | _, _ => none

/-- The two failure modes of the generation parsing step: the uncaught
SyntaxError of the second `JSON.parse`, and the explicit
`new Error("OpenAI did not return JSON.")`. -/
inductive GenParseError where
  | parseFailed
  | notJson
deriving Repr, DecidableEq

/-- The response-parsing step of `generateProductViaOpenAI`: try
`JSON.parse` on the whole text; on failure match the greedy brace regex
and re-parse the matched substring; a missing match throws
"OpenAI did not return JSON.", and a failing re-parse propagates the
SyntaxError. -/
def extractGeneratedJson (text : String) : Except GenParseError Json :=
  match jsonParse text with
  | some v => .ok v
  | none =>
    match jsonBraceMatch text with
    | none => .error .notJson
    | some sub =>
      match jsonParse sub with
      | some v => .ok v
      | none => .error .parseFailed

/-- Helper for `firstTopLevelBraces`: inside a brace-delimited region at
the given depth, accumulate until the matching top-level close. -/
def bracesFrom : Nat → List Char → List Char → Option (List Char)
  | _, _, [] => none
  | depth, acc, c :: rest =>
    if c = '}' then
      if depth = 1 then some (acc ++ [c])
      else bracesFrom (depth - 1) (acc ++ [c]) rest
    else if c = '{' then bracesFrom (depth + 1) (acc ++ [c]) rest
    else bracesFrom depth (acc ++ [c]) rest

/-- Modelled from the spec (section 4.3, variant B): "the raw text is
scanned for the first top-level brace-delimited substring".  This is the
spec-side extraction rule, to be compared with the source's greedy
`jsonBraceMatch`. -/
def firstTopLevelBraces : List Char → Option (List Char)
  | [] => none
  | c :: rest => if c = '{' then bracesFrom 1 [c] rest else firstTopLevelBraces rest

/-! ## encodeURIComponent and the placeholder image URL -/

/-- Upper-case hexadecimal digit. -/
def hexDigit (n : Nat) : Char :=
  if n < 10 then Char.ofNat (48 + n) else Char.ofNat (55 + n)

/-- Characters left unescaped by `encodeURIComponent`. -/
def isUriUnreserved (c : Char) : Bool :=
  c.isAlphanum || c == '-' || c == '_' || c == '.' || c == '!' || c == '~' ||
    c == '*' || c == '\'' || c == '(' || c == ')'

/-- Model of the JavaScript builtin `encodeURIComponent` on the ASCII
range: unreserved characters pass through, everything else is
percent-encoded. -/
def encodeURIComponent (s : String) : String :=
  String.mk (s.data.map fun c =>
    if isUriUnreserved c then [c]
    else ['%', hexDigit (c.toNat / 16 % 16), hexDigit (c.toNat % 16)]).flatten

/-- The placeholder image URL built by the first and second
`/update-images` handlers from the product title. -/
def placeholderImage (title : String) : String :=
  "https://via.placeholder.com/800x800.png?text=" ++ encodeURIComponent title

/-! ## The productIds request field and the Shopify product fetch -/

/-- The `productIds` field of an `/update-images` body as JavaScript
sees it: absent (or another falsy non-array value), a truthy non-array
value, or an actual array. -/
inductive IdsField where
  | absent
  | notArray
  | list (ids : List Nat)
deriving Repr, DecidableEq

/-- A product as read back from Shopify by the first and second
`/update-images` variants (`title` and `body_html` may be absent). -/
structure ProductSnapshot where
  title : Option String
  body_html : Option String
deriving Repr, DecidableEq

/-- Body of a Shopify single-product GET response: the `product` field
may be absent. -/
structure FetchResp where
  product : Option ProductSnapshot
deriving Repr, DecidableEq

/-! ## /update-images, first variant (server.js first file) -/

/-- One `updated` entry of the first `/update-images` variant. -/
structure U1Entry where
  id : Nat
  title : String
  image : String
  status : String
deriving Repr, DecidableEq

/-- Response of the first `/update-images` variant. -/
inductive Update1Resp where
  | ok (updated : List U1Entry)
  | badRequest (error : String)
  | serverError (error : String)
deriving Repr, DecidableEq

/-- HTTP status of a first-variant response. -/
def Update1Resp.httpStatus : Update1Resp → Nat
  | .ok _ => 200
  | .badRequest _ => 400
  | .serverError _ => 500

/-- The per-id loop of the first `/update-images` variant: fetch the
product (a thrown fetch aborts the batch); when the response has no
product, `continue` without recording anything; otherwise build the
placeholder image, PUT it to Shopify (a thrown PUT aborts the batch) and
record an entry.  The second component counts external calls. -/
def ui1Loop (fetchO : Nat → Except String FetchResp)
    (putO : Nat → String → Except String Unit) :
    List Nat → Except String (List U1Entry) × Nat
  | [] => (.ok [], 0)
  | id :: rest =>
    match fetchO id with
    | .error e => (.error e, 1)
    | .ok fr =>
      match fr.product with
      | none =>
        let p := ui1Loop fetchO putO rest
        (p.1, 1 + p.2)
      | some prod =>
        let title := jsOrS prod.title "Untitled Product"
        let mockImageUrl := placeholderImage title
        match putO id mockImageUrl with
        | .error e => (.error e, 2)
        | .ok _ =>
          let p := ui1Loop fetchO putO rest
          (p.1.map fun l => ⟨id, title, mockImageUrl, "updated"⟩ :: l, 2 + p.2)

/-- The first `/update-images` handler: 400 when `productIds` is not an
array or is empty, otherwise the loop, with the outer catch turning any
thrown error into a 500. -/
def updateImages1 (body : IdsField) (fetchO : Nat → Except String FetchResp)
    (putO : Nat → String → Except String Unit) : Update1Resp × Nat :=
  match body with
  | .list ids =>
    if ids.isEmpty then (.badRequest "No product IDs provided.", 0)
    else
      match ui1Loop fetchO putO ids with
      | (.ok l, n) => (.ok l, n)
      | (.error e, n) => (.serverError e, n)
  | _ => (.badRequest "No product IDs provided.", 0)

/-! ## /update-images, second variant (server.js second file) -/

/-- One `updated` entry of the second `/update-images` variant. -/
structure U2Entry where
  id : Nat
  title : String
  newImage : String
deriving Repr, DecidableEq

/-- Response of the second `/update-images` variant. -/
inductive Update2Resp where
  | ok (updated : List U2Entry)
  | badRequest (error : String)
  | serverError (error : String)
deriving Repr, DecidableEq

/-- HTTP status of a second-variant response. -/
def Update2Resp.httpStatus : Update2Resp → Nat
  | .ok _ => 200
  | .badRequest _ => 400
  | .serverError _ => 500

/-- The environment variables the second variant checks per request. -/
structure Env2 where
  domain : Option String
  token : Option String
deriving Repr, DecidableEq

/-- JavaScript truthiness of an optional environment string. -/
def envTruthy (o : Option String) : Bool :=
  match o with
  | none => false
  | some s => !(s == "")

/-- The per-id loop of the second `/update-images` variant (same skip
behavior as the first: a fetched response without a product records
nothing and continues). -/
def ui2Loop (fetchO : Nat → Except String FetchResp)
    (putO : Nat → String → Except String Unit) :
    List Nat → Except String (List U2Entry) × Nat
  | [] => (.ok [], 0)
  | id :: rest =>
    match fetchO id with
    | .error e => (.error e, 1)
    | .ok fr =>
      match fr.product with
      | none =>
        let p := ui2Loop fetchO putO rest
        (p.1, 1 + p.2)
      | some prod =>
        let title := jsOrS prod.title "Untitled Product"
        let newImage := placeholderImage title
        match putO id newImage with
        | .error e => (.error e, 2)
        | .ok _ =>
          let p := ui2Loop fetchO putO rest
          (p.1.map fun l => ⟨id, title, newImage⟩ :: l, 2 + p.2)

/-- The second `/update-images` handler: the `productIds` check (400)
comes first, then the environment check (500), then the loop. -/
def updateImages2 (env : Env2) (body : IdsField)
    (fetchO : Nat → Except String FetchResp)
    (putO : Nat → String → Except String Unit) : Update2Resp × Nat :=
  match body with
  | .list ids =>
    if ids.isEmpty then (.badRequest "No product IDs provided.", 0)
    else if !(envTruthy env.domain) || !(envTruthy env.token) then
      (.serverError "Missing SHOPIFY_STORE_DOMAIN or SHOPIFY_ACCESS_TOKEN environment variable.", 0)
    else
      match ui2Loop fetchO putO ids with
      | (.ok l, n) => (.ok l, n)
      | (.error e, n) => (.serverError e, n)
  | _ => (.badRequest "No product IDs provided.", 0)

/-! ## Printify mockup helper (server.js third variant) -/

/-- A variant entry of the Printify create payload. -/
structure PrintifyVariant where
  id : Nat
  price : Nat
  is_enabled : Bool
deriving Repr, DecidableEq

/-- The Printify product-create payload built by `createPrintifyMockup`
(the single front print-area image is flattened into `frontImageUrl`). -/
structure PrintifyPayload where
  title : String
  description : String
  blueprint_id : Nat
  print_provider_id : Nat
  variants : List PrintifyVariant
  frontImageUrl : String
  visible : Bool
deriving Repr, DecidableEq

/-- The literal payload of `createPrintifyMockup`: blueprint 6, print
provider 1, one enabled variant 4012 at price 1999, not visible. -/
def printifyProductPayload (title description imageUrl : String) : PrintifyPayload :=
  ⟨title, description, 6, 1, [⟨4012, 1999, true⟩], imageUrl, false⟩

/-- An entry of the Printify shops listing. -/
structure PrintifyShop where
  id : Nat
deriving Repr, DecidableEq

/-- An image of a Printify create response. -/
structure PrintifyImage where
  src : String
deriving Repr, DecidableEq

/-- Body of a Printify product-create response. -/
structure PrintifyCreateResp where
  images : List PrintifyImage
deriving Repr, DecidableEq

/-- The try-block of `createPrintifyMockup`: list the shops (`shopsO`),
take the first shop id (`data?.[0]?.id`, throwing
"No Printify shop found." when absent), create the product
(`createO shopId payload`), and return `images?.[0]?.src || null`.
Any `Except.error` models a thrown exception inside the try-block.
The second component counts external calls. -/
def createPrintifyMockupBody (title description imageUrl : String)
    (shopsO : Except String (List PrintifyShop))
    (createO : Nat → PrintifyPayload → Except String PrintifyCreateResp) :
    Except String (Option String) × Nat :=
  match shopsO with
  | .error e => (.error e, 1)
  | .ok shops =>
    match shops.head? with
    | none => (.error "No Printify shop found.", 1)
    | some shop =>
      match createO shop.id (printifyProductPayload title description imageUrl) with
      | .error e => (.error e, 2)
      | .ok resp => (.ok (jsOrOS (resp.images.head?.map (·.src)) none), 2)

/-- `createPrintifyMockup`: the whole body is wrapped in a try/catch
whose catch logs and returns `null`, so the helper never throws. -/
def createPrintifyMockup (title description imageUrl : String)
    (shopsO : Except String (List PrintifyShop))
    (createO : Nat → PrintifyPayload → Except String PrintifyCreateResp) :
    Option String × Nat :=
  match createPrintifyMockupBody title description imageUrl shopsO createO with
  | (.ok v, n) => (v, n)
  | (.error _, n) => (none, n)

/-! ## /update-images, third variant (server.js third file) -/

/-- A product as read back from Shopify by the third `/update-images`
variant (this variant reads `product.title` without a null check). -/
structure Product3 where
  title : String
  body_html : String
deriving Repr, DecidableEq

/-- Body of the Shopify single-product GET response used by the third
variant. -/
structure Fetch3Resp where
  product : Option Product3
deriving Repr, DecidableEq

/-- One `results` entry of the third `/update-images` variant. -/
structure U3Entry where
  id : Nat
  ok : Bool
  image : Option String
deriving Repr, DecidableEq

/-- Response of the third `/update-images` variant. -/
inductive Update3Resp where
  | ok (updated : List U3Entry)
  | badRequest (error : String)
  | serverError (error : String)
deriving Repr, DecidableEq

/-- HTTP status of a third-variant response. -/
def Update3Resp.httpStatus : Update3Resp → Nat
  | .ok _ => 200
  | .badRequest _ => 400
  | .serverError _ => 500

/-- The fixed design-library image URL passed to the mockup helper. -/
def designLibraryUrl : String := "https://yourdesignlibrary.com/default-design.png"

/-- The per-id loop of the third `/update-images` variant: fetch the
product (a thrown fetch, or reading `.title` of an absent product,
aborts the batch), call `createPrintifyMockup` (per-id Printify oracles
`shopsO id`, `createO id`), and either POST the mockup image to Shopify
and record an ok entry, or record a not-ok entry when no mockup was
produced. -/
def ui3Loop (fetchO : Nat → Except String Fetch3Resp)
    (shopsO : Nat → Except String (List PrintifyShop))
    (createO : Nat → Nat → PrintifyPayload → Except String PrintifyCreateResp)
    (postO : Nat → String → Except String Unit) :
    List Nat → Except String (List U3Entry) × Nat
  | [] => (.ok [], 0)
  | id :: rest =>
    match fetchO id with
    | .error e => (.error e, 1)
    | .ok fr =>
      match fr.product with
      | none => (.error "TypeError: Cannot read properties of undefined (reading 'title')", 1)
      | some prod =>
        let m := createPrintifyMockup prod.title prod.body_html designLibraryUrl
          (shopsO id) (createO id)
        match m.1 with
        | some url =>
          match postO id url with
          | .error e => (.error e, 1 + m.2 + 1)
          | .ok _ =>
            let p := ui3Loop fetchO shopsO createO postO rest
            (p.1.map fun l => ⟨id, true, some url⟩ :: l, 1 + m.2 + 1 + p.2)
        | none =>
          let p := ui3Loop fetchO shopsO createO postO rest
          (p.1.map fun l => ⟨id, false, none⟩ :: l, 1 + m.2 + p.2)

/-- The third `/update-images` handler: 400 only when `productIds` is
falsy or not an array (an empty array passes the check), otherwise the
loop, with the outer catch turning any thrown error into a 500. -/
def updateImages3 (body : IdsField)
    (fetchO : Nat → Except String Fetch3Resp)
    (shopsO : Nat → Except String (List PrintifyShop))
    (createO : Nat → Nat → PrintifyPayload → Except String PrintifyCreateResp)
    (postO : Nat → String → Except String Unit) : Update3Resp × Nat :=
  match body with
  | .absent => (.badRequest "Missing or invalid productIds array.", 0)
  | .notArray => (.badRequest "Missing or invalid productIds array.", 0)
  | .list ids =>
    match ui3Loop fetchO shopsO createO postO ids with
    | (.ok l, n) => (.ok l, n)
    | (.error e, n) => (.serverError e, n)

/-! ## Helper lemmas -/

/-- Characterisation of `jsRound` via bounds. -/
theorem jsRound_eq (q : ℚ) (z : ℤ) (h1 : (z : ℚ) ≤ q + 1/2) (h2 : q + 1/2 < (z : ℚ) + 1) :
    jsRound q = z := by
  unfold jsRound
  rw [Int.floor_eq_iff]
  exact ⟨h1, by exact_mod_cast h2⟩

/-! ## Claim C2 -/

/-- C2: for every baseCost and configuration, `computeRetailPrice`
equals the reference definition `inflated = baseCost * (1 +
inflationRate)`; `withMargin = inflated * (1 + margin)`; `retail =
withMargin * (1 + taxRate)`, rounded to two decimal places, nearest
cent, half-up. -/
theorem c2_computeRetailPrice_eq_spec (baseCost : ℚ) (cfg : PricingCfg) :
    computeRetailPrice baseCost cfg = specRetailPrice baseCost cfg := by
  simp only [computeRetailPrice, specRetailPrice, jsRound]
  have h : (baseCost * (1 + cfg.inflationRate) + baseCost * (1 + cfg.inflationRate) * cfg.margin)
        * (1 + cfg.taxRate) * 100 + 1/2
      = baseCost * (1 + cfg.inflationRate) * (1 + cfg.margin) * (1 + cfg.taxRate) * 100 + 1/2 := by
    ring
  rw [h]

/-! ## Claim C3 -/

/-- C3 counterexample: the claim asserts `retail ≥ baseCost` for every
baseCost ≥ 0 and fractions in [0,1).  At `baseCost = 1/250` (0.004) with
all three fractions 0 the computed retail price is 0, which is strictly
below the base cost: rounding to the nearest cent can lose up to half a
cent of a sub-cent base cost. -/
theorem c3_counterexample :
    computeRetailPrice (1/250) ⟨0, 0, 0⟩ = 0 ∧ (0 : ℚ) < 1/250 := by
  constructor
  · have h : jsRound (((1:ℚ)/250 * (1 + 0) + 1/250 * (1 + 0) * 0) * (1 + 0) * 100) = 0 :=
      jsRound_eq _ _ (by norm_num) (by norm_num)
    simp only [computeRetailPrice]
    rw [h]
    norm_num
  · norm_num

/-- C3 amended: for every baseCost ≥ 0 that is a whole number of cents
and fractions in [0,1), `retail ≥ baseCost`; the result is always a
whole number of cents (two decimal places); and the spec's example
`baseCost=8, inflation=0.05, margin=0.35, tax=0.07` yields exactly 12.13
(the spec's "≈ 12.12" is off by one cent). -/
theorem c3_amended :
    (∀ (k : ℕ) (i t m : ℚ), 0 ≤ i → i < 1 → 0 ≤ t → t < 1 → 0 ≤ m → m < 1 →
      (k : ℚ)/100 ≤ computeRetailPrice ((k : ℚ)/100) ⟨i, t, m⟩)
    ∧ (∀ (c : ℚ) (cfg : PricingCfg), ∃ z : ℤ, computeRetailPrice c cfg = (z : ℚ)/100)
    ∧ computeRetailPrice 8 ⟨5/100, 7/100, 35/100⟩ = 1213/100 := by
  refine ⟨?_, ?_, ?_⟩
  · intro k i t m hi _ ht _ hm _
    simp only [computeRetailPrice, jsRound]
    have hk0 : (0 : ℚ) ≤ (k : ℚ) := Nat.cast_nonneg k
    have hfloor : (k : ℤ) ≤
        ⌊((k : ℚ)/100 * (1 + i) + (k : ℚ)/100 * (1 + i) * m) * (1 + t) * 100 + 1/2⌋ := by
      apply Int.le_floor.mpr
      push_cast
      nlinarith [mul_nonneg hk0 hi, mul_nonneg hk0 ht, mul_nonneg hk0 hm,
        mul_nonneg (mul_nonneg hk0 hi) hm, mul_nonneg (mul_nonneg hk0 hi) ht,
        mul_nonneg (mul_nonneg hk0 hm) ht,
        mul_nonneg (mul_nonneg (mul_nonneg hk0 hi) hm) ht]
    have : ((k : ℚ)) ≤
        (⌊((k : ℚ)/100 * (1 + i) + (k : ℚ)/100 * (1 + i) * m) * (1 + t) * 100 + 1/2⌋ : ℚ) := by
      exact_mod_cast hfloor
    linarith
  · intro c cfg
    exact ⟨_, rfl⟩
  · have h : jsRound ((8 * (1 + 5/100) + 8 * (1 + 5/100) * (35/100)) * (1 + 7/100) * 100 : ℚ)
        = 1213 := jsRound_eq _ _ (by norm_num) (by norm_num)
    simp only [computeRetailPrice]
    rw [h]
    norm_num

/-- Witness for `c3_amended`: the whole-cent base cost 8.00 = 800/100
with the default fractions satisfies the hypotheses, and the bound
holds there. -/
theorem c3_amended_witness :
    (0 : ℚ) ≤ 5/100 ∧ (5/100 : ℚ) < 1 ∧
      (800 : ℚ)/100 ≤ computeRetailPrice ((800 : ℚ)/100) ⟨5/100, 7/100, 35/100⟩ :=
  ⟨by norm_num, by norm_num,
    c3_amended.1 800 (5/100) (7/100) (35/100) (by norm_num) (by norm_num) (by norm_num)
      (by norm_num) (by norm_num) (by norm_num)⟩

/-! ## Lemmas about the second /bulk-generate loop -/

/-- The safe loop yields exactly one result per seed. -/
theorem bulk2Loop_length (cfg : PricingCfg) (genO : Nat → Except String Gen)
    (shopO : Nat → SafePayload → Except String ShopCreateResp) :
    ∀ (start : Nat) (seeds : List Seed),
      (bulk2Loop cfg genO shopO start seeds).length = seeds.length := by
  intro start seeds
  induction seeds generalizing start with
  | nil => rfl
  | cons s rest ih => simp [bulk2Loop, ih]

/-- The j-th result of the safe loop is the item-processing of the j-th
seed at index `start + j`. -/
theorem bulk2Loop_getElem (cfg : PricingCfg) (genO : Nat → Except String Gen)
    (shopO : Nat → SafePayload → Except String ShopCreateResp) :
    ∀ (seeds : List Seed) (start j : Nat),
      (bulk2Loop cfg genO shopO start seeds)[j]?
        = (seeds[j]?).map (fun s => bulk2Item cfg genO shopO (start + j) s) := by
  intro seeds
  induction seeds with
  | nil => intro start j; rfl
  | cons s rest ih =>
    intro start j
    cases j with
    | zero => simp [bulk2Loop]
    | succ j =>
      simp only [bulk2Loop, List.getElem?_cons_succ]
      rw [ih (start + 1) j]
      simp [Nat.add_assoc, Nat.add_comm 1 j]

/-- Whatever the oracles do, an item's result carries its own index. -/
theorem bulk2Item_seedIndex (cfg : PricingCfg) (genO : Nat → Except String Gen)
    (shopO : Nat → SafePayload → Except String ShopCreateResp) (i : Nat) (s : Seed) :
    (bulk2Item cfg genO shopO i s).seedIndex = i := by
  unfold bulk2Item
  rcases h : genO i with e | g
  · simp
  · simp only []
    rcases h2 : shopO i (safeProduct g s (jsOrQ g.recommended_price
      (computeRetailPrice (jsOrQ g.price_base 8) cfg))) with e2 | r2 <;> simp [h2]

/-- A fixed concrete seed used by several witnesses. -/
def demoSeed : Seed := ⟨"Scary Fast", "street speed", some "T-Shirt", "minimal"⟩

/-- A fixed concrete successfully-generated product used by several
witnesses (its `recommended_price` is set, so no pricing fallback is
needed). -/
def genOk : Gen := ⟨some "Tee", none, some "desc", none, some 10, [], []⟩

/-! ## Claim C1 -/

/-- C1 counterexample: the claim asserts that for every batch request to
`/bulk-generate`, a per-item error is caught and recorded and never
fails the whole batch with a 500.  The first registered
`/bulk-generate` handler (which Express dispatches requests to, being
registered first) has no per-item try/catch: with a single seed whose
generation call throws "boom", the whole batch fails with an HTTP 500
carrying that message and an empty result. -/
theorem c1_counterexample :
    bulkGenerate1 ⟨some [demoSeed], none⟩ envCfgDefaults
      (fun _ => .error "boom") (fun _ _ => .ok ⟨none⟩)
      = .serverError "boom" := rfl

/-- C1 amended: in the second `/bulk-generate` handler every per-item
error (generation failure or store write failure) is caught locally and
recorded as a failed `SyncResult`, processing continues, and the
response is always the 200-ok shape; the first handler, by contrast,
lets any per-item error abort the whole batch with a 500
(see the counterexample). -/
theorem c1_amended (body : BulkBody) (cfg : PricingCfg)
    (genO : Nat → Except String Gen)
    (shopO : Nat → SafePayload → Except String ShopCreateResp) :
    bulkGenerate2 body cfg genO shopO
      = .ok ((bulk2Results body cfg genO shopO).filter (·.ok)).length
          (bulk2Results body cfg genO shopO)
    ∧ (bulk2Results body cfg genO shopO).length
        = ((body.seeds.getD generateDemoSeeds).take (jsCount body.count)).length
    ∧ (∀ i e, genO i = .error e →
        ((bulk2Results body cfg genO shopO)[i]?).all
          (fun r => r = ⟨i, false, none, none, some ("OpenAI error: " ++ e)⟩))
    ∧ (∀ i g e, genO i = .ok g → (∀ pl, shopO i pl = .error e) →
        ((bulk2Results body cfg genO shopO)[i]?).all
          (fun r => r = ⟨i, false, none, none, some e⟩)) := by
  refine ⟨rfl, ?_, ?_, ?_⟩
  · simp [bulk2Results, bulk2Loop_length]
  · intro i e hgen
    rw [bulk2Results, bulk2Loop_getElem]
    cases hs : ((body.seeds.getD generateDemoSeeds).take (jsCount body.count))[i]? with
    | none => simp
    | some s => simp [bulk2Item, hgen]
  · intro i g e hgen hshop
    rw [bulk2Results, bulk2Loop_getElem]
    cases hs : ((body.seeds.getD generateDemoSeeds).take (jsCount body.count))[i]? with
    | none => simp
    | some s => simp [bulk2Item, hgen, hshop]

/-- Witness for `c1_amended`: a two-seed batch whose generation call
fails on every item still yields one failed `SyncResult` per item and
the 200-ok response. -/
theorem c1_amended_witness :
    ((fun _ : Nat => (Except.error "boom" : Except String Gen)) 0 = .error "boom")
    ∧ ((bulk2Results ⟨some [demoSeed, demoSeed], some 2⟩ envCfgDefaults
        (fun _ => .error "boom") (fun _ _ => .ok ⟨none⟩))[0]?).all
        (fun r => r = ⟨0, false, none, none, some ("OpenAI error: " ++ "boom")⟩) :=
  ⟨rfl,
    (c1_amended ⟨some [demoSeed, demoSeed], some 2⟩ envCfgDefaults
      (fun _ => .error "boom") (fun _ _ => .ok ⟨none⟩)).2.2.1 0 "boom" rfl⟩

/-! ## Claim C4 -/

/-- C4 counterexample: the claim asserts `results.length = min(count,
seeds.length)` for every `/bulk-generate` request with seeds and a count
cap.  The first registered handler ignores `count` entirely: with two
seeds and `count = 1` (all external calls succeeding) it creates and
returns 2 entries, not `min 1 2 = 1`. -/
theorem c4_counterexample :
    bulkGenerate1 ⟨some [demoSeed, demoSeed], some 1⟩ envCfgDefaults
      (fun _ => .ok genOk) (fun _ _ => .ok ⟨some ⟨1, "Tee"⟩⟩)
      = .ok 2 [⟨demoSeed, genOk, ⟨some ⟨1, "Tee"⟩⟩⟩, ⟨demoSeed, genOk, ⟨some ⟨1, "Tee"⟩⟩⟩]
    ∧ (2 : Nat) ≠ min 1 2 := ⟨rfl, by decide⟩

/-- C4 amended: for the second `/bulk-generate` handler and a positive
supplied count, the results list has length `min count seeds.length`
and the entry at position i (when present) carries `seedIndex = i`, so
order matches input order; the first handler ignores the count cap (see
the counterexample). -/
theorem c4_amended (body : BulkBody) (cfg : PricingCfg)
    (genO : Nat → Except String Gen)
    (shopO : Nat → SafePayload → Except String ShopCreateResp)
    (c : Nat) (hc : body.count = some c) (hpos : 0 < c) :
    (bulk2Results body cfg genO shopO).length
      = min c (body.seeds.getD generateDemoSeeds).length
    ∧ ∀ (i : Nat) (r : SyncResult),
        (bulk2Results body cfg genO shopO)[i]? = some r → r.seedIndex = i := by
  constructor
  · have : jsCount body.count = c := by
      rw [hc]
      simp [jsCount, Nat.pos_iff_ne_zero.mp hpos]
    simp [bulk2Results, bulk2Loop_length, this]
  · intro i r hr
    rw [bulk2Results, bulk2Loop_getElem] at hr
    cases hs : ((body.seeds.getD generateDemoSeeds).take (jsCount body.count))[i]? with
    | none => rw [hs] at hr; simp at hr
    | some s =>
      rw [hs] at hr
      have hr2 : bulk2Item cfg genO shopO (0 + i) s = r := by simpa using hr
      rw [← hr2]
      simpa using bulk2Item_seedIndex cfg genO shopO (0 + i) s

/-- Witness for `c4_amended`: two seeds, count 1: exactly one result,
carrying seed index 0. -/
theorem c4_amended_witness :
    ((⟨some [demoSeed, demoSeed], some 1⟩ : BulkBody).count = some 1)
    ∧ (0 : Nat) < 1
    ∧ (bulk2Results ⟨some [demoSeed, demoSeed], some 1⟩ envCfgDefaults
        (fun _ => .error "boom") (fun _ _ => .ok ⟨none⟩)).length = min 1 2 :=
  ⟨rfl, by decide,
    ((c4_amended ⟨some [demoSeed, demoSeed], some 1⟩ envCfgDefaults
      (fun _ => .error "boom") (fun _ _ => .ok ⟨none⟩) 1 rfl (by decide)).1).trans rfl⟩

/-! ## Claim C10 -/

/-- C10 counterexample: the claim says a count of 0 makes the second
handler process "20 demo seeds or the full supplied seeds list".  With
21 supplied seeds and count 0 the handler processes
`min 20 21 = 20` items, not the full 21-seed list. -/
theorem c10_counterexample :
    (bulk2Results ⟨some (List.replicate 21 demoSeed), some 0⟩ envCfgDefaults
        (fun _ => .error "e") (fun _ _ => .ok ⟨none⟩)).length = 20
    ∧ (List.replicate 21 demoSeed).length = 21 := by
  constructor
  · simp [bulk2Results, bulk2Loop_length, jsCount]
  · simp

/-- C10 amended: with `count = 0` (falsy, so `req.body.count || 20`
yields 20) the second handler processes `min 20 seeds.length` items —
all 20 demo seeds when no seeds are supplied, or the supplied list
capped at its first 20 — and in particular not zero items whenever the
seeds list is nonempty. -/
theorem c10_amended (body : BulkBody) (cfg : PricingCfg)
    (genO : Nat → Except String Gen)
    (shopO : Nat → SafePayload → Except String ShopCreateResp)
    (h0 : body.count = some 0) :
    (bulk2Results body cfg genO shopO).length
      = min 20 (body.seeds.getD generateDemoSeeds).length
    ∧ (body.seeds = none → (bulk2Results body cfg genO shopO).length = 20)
    ∧ (body.seeds.getD generateDemoSeeds ≠ [] →
        (bulk2Results body cfg genO shopO).length ≠ 0) := by
  have hcount : jsCount body.count = 20 := by rw [h0]; rfl
  have hlen : (bulk2Results body cfg genO shopO).length
      = min 20 (body.seeds.getD generateDemoSeeds).length := by
    simp [bulk2Results, bulk2Loop_length, hcount]
  refine ⟨hlen, ?_, ?_⟩
  · intro hnone
    rw [hlen, hnone]
    rfl
  · intro hne
    have h1 : (body.seeds.getD generateDemoSeeds).length ≠ 0 := by
      simpa [List.length_eq_zero] using hne
    rw [hlen]
    omega

/-- Witness for `c10_amended`: no seeds supplied and `count = 0`: all 20
demo seeds are processed. -/
theorem c10_amended_witness :
    ((⟨none, some 0⟩ : BulkBody).count = some 0)
    ∧ (bulk2Results ⟨none, some 0⟩ envCfgDefaults
        (fun _ => .error "e") (fun _ _ => .ok ⟨none⟩)).length = 20 :=
  ⟨rfl,
    (c10_amended ⟨none, some 0⟩ envCfgDefaults
      (fun _ => .error "e") (fun _ _ => .ok ⟨none⟩) rfl).2.1 rfl⟩

/-! ## Claim C5 -/

/-- A fixed concrete product-data value. -/
def pdX : ProductData :=
  ⟨some "Tee", some "desc", ["a", "b"], 10, some "T-Shirt", none, []⟩

/-- C5 counterexample: the claim asserts every product-creation write
creates the product in a non-published/draft state.  The payload built
by `createShopifyProduct` — the write used by `/create-product`,
`/generate-and-create`, and the first `/bulk-generate` handler — sets no
`status` field at all, so the storefront applies its default (active /
published) instead of draft. -/
theorem c5_counterexample :
    (createShopifyProductPayload pdX).status = none
    ∧ (createShopifyProductPayload pdX).status ≠ some "draft" :=
  ⟨rfl, by simp [createShopifyProductPayload]⟩

/-- C5 amended: only the second `/bulk-generate` handler's `safeProduct`
payload requests `status: "draft"`; the `createShopifyProduct` payload
(used by `/create-product`, `/generate-and-create` and the first
`/bulk-generate` handler) omits the field, leaving the platform default
(published). -/
theorem c5_amended :
    (∀ (gen : Gen) (seed : Seed) (price : ℚ),
      (safeProduct gen seed price).status = some "draft")
    ∧ (∀ pd : ProductData, (createShopifyProductPayload pd).status = none) :=
  ⟨fun _ _ _ => rfl, fun _ => rfl⟩

/-! ## Claim C6 -/

/-- C6 counterexample: the claim asserts every `/update-images` POST
with a missing, non-array or empty `productIds` yields HTTP 400.  The
third variant's check (`!productIds || !Array.isArray(productIds)`)
lets an empty array through: the response is HTTP 200 with an empty
`updated` list (still zero external calls). -/
theorem c6_counterexample :
    (updateImages3 (.list []) (fun _ => .error "f") (fun _ => .error "s")
        (fun _ _ _ => .error "c") (fun _ _ => .error "p")).1 = .ok []
    ∧ (updateImages3 (.list []) (fun _ => .error "f") (fun _ => .error "s")
        (fun _ _ _ => .error "c") (fun _ _ => .error "p")).2 = 0
    ∧ ((updateImages3 (.list []) (fun _ => .error "f") (fun _ => .error "s")
        (fun _ _ _ => .error "c") (fun _ _ => .error "p")).1).httpStatus = 200 :=
  ⟨rfl, rfl, rfl⟩

/-- C6 amended: the first and second `/update-images` variants return
HTTP 400 with an error field and issue zero external calls for a
missing, non-array or empty `productIds`; the third variant does so for
a missing or non-array field, but accepts an empty array, returning
HTTP 200 with an empty update list — still with zero external calls. -/
theorem c6_amended (env : Env2)
    (fetchO : Nat → Except String FetchResp)
    (putO : Nat → String → Except String Unit)
    (fetchO3 : Nat → Except String Fetch3Resp)
    (shopsO : Nat → Except String (List PrintifyShop))
    (createO : Nat → Nat → PrintifyPayload → Except String PrintifyCreateResp)
    (postO : Nat → String → Except String Unit) :
    updateImages1 .absent fetchO putO = (.badRequest "No product IDs provided.", 0)
    ∧ updateImages1 .notArray fetchO putO = (.badRequest "No product IDs provided.", 0)
    ∧ updateImages1 (.list []) fetchO putO = (.badRequest "No product IDs provided.", 0)
    ∧ updateImages2 env .absent fetchO putO = (.badRequest "No product IDs provided.", 0)
    ∧ updateImages2 env .notArray fetchO putO = (.badRequest "No product IDs provided.", 0)
    ∧ updateImages2 env (.list []) fetchO putO = (.badRequest "No product IDs provided.", 0)
    ∧ updateImages3 .absent fetchO3 shopsO createO postO
        = (.badRequest "Missing or invalid productIds array.", 0)
    ∧ updateImages3 .notArray fetchO3 shopsO createO postO
        = (.badRequest "Missing or invalid productIds array.", 0)
    ∧ updateImages3 (.list []) fetchO3 shopsO createO postO = (.ok [], 0) :=
  ⟨rfl, rfl, rfl, rfl, rfl, rfl, rfl, rfl, rfl⟩

/-! ## Claim C9 -/

/-- The entry the first `/update-images` variant records for one id
(`none` when the fetched response has no product, or the fetch threw). -/
def u1EntryFor (fetchO : Nat → Except String FetchResp) (id : Nat) : Option U1Entry :=
  match fetchO id with
  | .error _ => none
  | .ok fr =>
    match fr.product with
    | none => none
    | some prod =>
      let title := jsOrS prod.title "Untitled Product"
      some ⟨id, title, placeholderImage title, "updated"⟩

/-- The entry the second `/update-images` variant records for one id. -/
def u2EntryFor (fetchO : Nat → Except String FetchResp) (id : Nat) : Option U2Entry :=
  match fetchO id with
  | .error _ => none
  | .ok fr =>
    match fr.product with
    | none => none
    | some prod =>
      let title := jsOrS prod.title "Untitled Product"
      some ⟨id, title, placeholderImage title⟩

/-- Whether the fetch for an id returns a response carrying a product. -/
def foundProduct (fetchO : Nat → Except String FetchResp) (id : Nat) : Bool :=
  match fetchO id with
  | .error _ => false
  | .ok fr => fr.product.isSome

/-- Under throw-free oracles, the first variant's loop succeeds and its
entries are exactly the per-id entries of the found products, in input
order. -/
theorem ui1Loop_ok (fetchO : Nat → Except String FetchResp)
    (putO : Nat → String → Except String Unit) :
    ∀ ids : List Nat, (∀ id ∈ ids, ∃ fr, fetchO id = .ok fr) →
      (∀ id url, putO id url = .ok ()) →
      ∃ n, ui1Loop fetchO putO ids = (.ok (ids.filterMap (u1EntryFor fetchO)), n) := by
  intro ids
  induction ids with
  | nil => intro _ _; exact ⟨0, rfl⟩
  | cons id rest ih =>
    intro hf hp
    obtain ⟨fr, hfr⟩ := hf id (by simp)
    obtain ⟨n, hn⟩ := ih (fun i hi => hf i (by simp [hi])) hp
    cases hprod : fr.product with
    | none =>
      refine ⟨1 + n, ?_⟩
      simp [ui1Loop, hfr, hprod, hn, List.filterMap_cons, u1EntryFor]
    | some prod =>
      refine ⟨2 + n, ?_⟩
      simp [ui1Loop, hfr, hprod, hn, hp, List.filterMap_cons, u1EntryFor, Except.map]

/-- Same for the second variant's loop. -/
theorem ui2Loop_ok (fetchO : Nat → Except String FetchResp)
    (putO : Nat → String → Except String Unit) :
    ∀ ids : List Nat, (∀ id ∈ ids, ∃ fr, fetchO id = .ok fr) →
      (∀ id url, putO id url = .ok ()) →
      ∃ n, ui2Loop fetchO putO ids = (.ok (ids.filterMap (u2EntryFor fetchO)), n) := by
  intro ids
  induction ids with
  | nil => intro _ _; exact ⟨0, rfl⟩
  | cons id rest ih =>
    intro hf hp
    obtain ⟨fr, hfr⟩ := hf id (by simp)
    obtain ⟨n, hn⟩ := ih (fun i hi => hf i (by simp [hi])) hp
    cases hprod : fr.product with
    | none =>
      refine ⟨1 + n, ?_⟩
      simp [ui2Loop, hfr, hprod, hn, List.filterMap_cons, u2EntryFor]
    | some prod =>
      refine ⟨2 + n, ?_⟩
      simp [ui2Loop, hfr, hprod, hn, hp, List.filterMap_cons, u2EntryFor, Except.map]

/-- The ids of the recorded entries are exactly the input ids whose
fetch found a product, in input order. -/
theorem u1EntryFor_ids (fetchO : Nat → Except String FetchResp) :
    ∀ ids : List Nat, (ids.filterMap (u1EntryFor fetchO)).map (·.id)
      = ids.filter (foundProduct fetchO) := by
  intro ids
  induction ids with
  | nil => rfl
  | cons id rest ih =>
    cases hfr : fetchO id with
    | error e =>
      simp [List.filterMap_cons, List.filter_cons, u1EntryFor, foundProduct, hfr, ih]
    | ok fr =>
      cases hprod : fr.product with
      | none =>
        simp [List.filterMap_cons, List.filter_cons, u1EntryFor, foundProduct, hfr, hprod, ih]
      | some prod =>
        simp [List.filterMap_cons, List.filter_cons, u1EntryFor, foundProduct, hfr, hprod, ih]

/-- Same for the second variant. -/
theorem u2EntryFor_ids (fetchO : Nat → Except String FetchResp) :
    ∀ ids : List Nat, (ids.filterMap (u2EntryFor fetchO)).map (·.id)
      = ids.filter (foundProduct fetchO) := by
  intro ids
  induction ids with
  | nil => rfl
  | cons id rest ih =>
    cases hfr : fetchO id with
    | error e =>
      simp [List.filterMap_cons, List.filter_cons, u2EntryFor, foundProduct, hfr, ih]
    | ok fr =>
      cases hprod : fr.product with
      | none =>
        simp [List.filterMap_cons, List.filter_cons, u2EntryFor, foundProduct, hfr, hprod, ih]
      | some prod =>
        simp [List.filterMap_cons, List.filter_cons, u2EntryFor, foundProduct, hfr, hprod, ih]

/-- Concrete fetch oracle for C9: ids 1 and 2 exist, everything else
fetches fine but carries no product ("reports not-found"). -/
def fetchC : Nat → Except String FetchResp := fun id =>
  .ok (if id = 1 then ⟨some ⟨some "A", some "d"⟩⟩
    else if id = 2 then ⟨some ⟨some "B", some "d"⟩⟩ else ⟨none⟩)

/-- Concrete always-successful image PUT oracle for C9. -/
def putC : Nat → String → Except String Unit := fun _ _ => .ok ()

/-- C9 counterexample: the claim asserts one entry per input item, in
input order, with the not-found middle item present as a not-ok entry.
The first `/update-images` variant instead `continue`s over a not-found
product without recording anything: for ids `[1, 999999, 2]` where
999999 reports not-found, the response carries only 2 entries (for 1
and 2), not 3. -/
theorem c9_counterexample :
    (updateImages1 (.list [1, 999999, 2]) fetchC putC).1
      = .ok [⟨1, "A", placeholderImage "A", "updated"⟩,
          ⟨2, "B", placeholderImage "B", "updated"⟩]
    ∧ ([(⟨1, "A", placeholderImage "A", "updated"⟩ : U1Entry),
        ⟨2, "B", placeholderImage "B", "updated"⟩].length = 2)
    ∧ [1, 999999, 2].length = 3 := ⟨rfl, rfl, rfl⟩

/-- C9 amended: under throw-free oracles the first and second
`/update-images` variants do not fail the batch on a not-found product,
but they record no entry for it either: the recorded entries are
exactly the found items' entries, in input order (their ids are the
input ids filtered to the found ones), and the first variant's handler
responds 200-ok with that list for any nonempty id list. -/
theorem c9_amended (ids : List Nat)
    (fetchO : Nat → Except String FetchResp)
    (putO : Nat → String → Except String Unit)
    (hf : ∀ id ∈ ids, ∃ fr, fetchO id = .ok fr)
    (hp : ∀ id url, putO id url = .ok ()) :
    (∃ n, ui1Loop fetchO putO ids = (.ok (ids.filterMap (u1EntryFor fetchO)), n)
      ∧ (ids ≠ [] → updateImages1 (.list ids) fetchO putO
          = (.ok (ids.filterMap (u1EntryFor fetchO)), n)))
    ∧ (ids.filterMap (u1EntryFor fetchO)).map (·.id) = ids.filter (foundProduct fetchO)
    ∧ (∃ n2, ui2Loop fetchO putO ids = (.ok (ids.filterMap (u2EntryFor fetchO)), n2))
    ∧ (ids.filterMap (u2EntryFor fetchO)).map (·.id) = ids.filter (foundProduct fetchO) := by
  obtain ⟨n, hn⟩ := ui1Loop_ok fetchO putO ids hf hp
  refine ⟨⟨n, hn, ?_⟩, u1EntryFor_ids fetchO ids, ui2Loop_ok fetchO putO ids hf hp,
    u2EntryFor_ids fetchO ids⟩
  intro hne
  have hempty : ids.isEmpty = false := by
    cases ids with
    | nil => exact absurd rfl hne
    | cons a l => rfl
  simp [updateImages1, hempty, hn]

/-- Witness for `c9_amended` at the concrete ids `[1, 999999, 2]`:
the recorded ids are exactly the found ones, `[1, 2]`. -/
theorem c9_amended_witness :
    ([1, 999999, 2].filterMap (u1EntryFor fetchC)).map (·.id)
      = [1, 999999, 2].filter (foundProduct fetchC)
    ∧ [1, 999999, 2].filter (foundProduct fetchC) = [1, 2] :=
  ⟨(c9_amended [1, 999999, 2] fetchC putC (fun _ _ => ⟨_, rfl⟩) (fun _ _ => rfl)).2.1,
    rfl⟩

/-! ## Claim C8 -/

/-- The entry the third `/update-images` variant records for one id
whose fetch found a product: ok with the mockup image when the mockup
helper produced one, not-ok otherwise. -/
def u3EntryFor (prod : Nat → Product3)
    (shopsO : Nat → Except String (List PrintifyShop))
    (createO : Nat → Nat → PrintifyPayload → Except String PrintifyCreateResp)
    (id : Nat) : U3Entry :=
  match (createPrintifyMockup (prod id).title (prod id).body_html designLibraryUrl
      (shopsO id) (createO id)).1 with
  | some url => ⟨id, true, some url⟩
  | none => ⟨id, false, none⟩

/-- Under product-bearing fetches and throw-free image POSTs, the third
variant's loop succeeds with exactly one entry per id, in input
order. -/
theorem ui3Loop_ok (prod : Nat → Product3)
    (fetchO : Nat → Except String Fetch3Resp)
    (shopsO : Nat → Except String (List PrintifyShop))
    (createO : Nat → Nat → PrintifyPayload → Except String PrintifyCreateResp)
    (postO : Nat → String → Except String Unit) :
    ∀ ids : List Nat, (∀ id ∈ ids, fetchO id = .ok ⟨some (prod id)⟩) →
      (∀ id url, postO id url = .ok ()) →
      ∃ n, ui3Loop fetchO shopsO createO postO ids
        = (.ok (ids.map (u3EntryFor prod shopsO createO)), n) := by
  intro ids
  induction ids with
  | nil => intro _ _; exact ⟨0, rfl⟩
  | cons id rest ih =>
    intro hf hp
    have hfr : fetchO id = .ok ⟨some (prod id)⟩ := hf id (by simp)
    obtain ⟨n, hn⟩ := ih (fun i hi => hf i (by simp [hi])) hp
    cases hm : (createPrintifyMockup (prod id).title (prod id).body_html designLibraryUrl
        (shopsO id) (createO id)).1 with
    | some url =>
      refine ⟨1 + (createPrintifyMockup (prod id).title (prod id).body_html designLibraryUrl
        (shopsO id) (createO id)).2 + 1 + n, ?_⟩
      simp [ui3Loop, hfr, hm, hp, hn, u3EntryFor, Except.map]
    | none =>
      refine ⟨1 + (createPrintifyMockup (prod id).title (prod id).body_html designLibraryUrl
        (shopsO id) (createO id)).2 + n, ?_⟩
      simp [ui3Loop, hfr, hm, hn, u3EntryFor, Except.map]

/-- C8: the mockup-creation step never propagates a thrown error — any
failure of its try-block (shops listing throw, no shop configured, or a
create-call throw) is caught and turned into "no mockup produced"
(`none`) — and the third `/update-images` handler treats such an item as
a skippable not-ok entry: with product-bearing fetches and throw-free
image POSTs it responds 200-ok with one entry per id, where each id
whose mockup step produced nothing appears as an ok=false entry, the
batch never aborting over it. -/
theorem c8_mockup_never_propagates :
    (∀ (title description imageUrl : String)
        (shopsO : Except String (List PrintifyShop))
        (createO : Nat → PrintifyPayload → Except String PrintifyCreateResp)
        (e : String) (n : Nat),
      createPrintifyMockupBody title description imageUrl shopsO createO = (.error e, n) →
      createPrintifyMockup title description imageUrl shopsO createO = (none, n))
    ∧ (∀ (ids : List Nat) (prod : Nat → Product3)
        (fetchO : Nat → Except String Fetch3Resp)
        (shopsO : Nat → Except String (List PrintifyShop))
        (createO : Nat → Nat → PrintifyPayload → Except String PrintifyCreateResp)
        (postO : Nat → String → Except String Unit),
        (∀ id ∈ ids, fetchO id = .ok ⟨some (prod id)⟩) →
        (∀ id url, postO id url = .ok ()) →
        ∃ n, updateImages3 (.list ids) fetchO shopsO createO postO
            = (.ok (ids.map (u3EntryFor prod shopsO createO)), n)
          ∧ (ids.map (u3EntryFor prod shopsO createO)).length = ids.length
          ∧ ∀ (k id : Nat), ids[k]? = some id →
              (createPrintifyMockup (prod id).title (prod id).body_html designLibraryUrl
                  (shopsO id) (createO id)).1 = none →
              (ids.map (u3EntryFor prod shopsO createO))[k]? = some ⟨id, false, none⟩) := by
  constructor
  · intro title description imageUrl shopsO createO e n h
    simp [createPrintifyMockup, h]
  · intro ids prod fetchO shopsO createO postO hf hp
    obtain ⟨n, hn⟩ := ui3Loop_ok prod fetchO shopsO createO postO ids hf hp
    refine ⟨n, ?_, List.length_map _ _, ?_⟩
    · simp [updateImages3, hn]
    · intro k id hk hmock
      rw [List.getElem?_map, hk]
      simp [u3EntryFor, hmock]

/-- Fixed product map for the C8 witness. -/
def prodW : Nat → Product3 := fun _ => ⟨"T", "D"⟩

/-- Fixed fetch oracle for the C8 witness. -/
def fetchW : Nat → Except String Fetch3Resp := fun _ => .ok ⟨some ⟨"T", "D"⟩⟩

/-- Fixed Printify shops oracle for the C8 witness: the listing call
throws (e.g. provider configuration absent). -/
def shopsW : Nat → Except String (List PrintifyShop) := fun _ => .error "printify down"

/-- Fixed Printify create oracle for the C8 witness. -/
def createW : Nat → Nat → PrintifyPayload → Except String PrintifyCreateResp :=
  fun _ _ _ => .error "create failed"

/-- Witness for `c8_mockup_never_propagates`: a one-item batch whose
Printify shops call throws still yields a 200-ok response whose single
entry is the not-ok record for that item. -/
theorem c8_witness :
    ∃ n, updateImages3 (.list [7]) fetchW shopsW createW (fun _ _ => .ok ())
        = (.ok ([7].map (u3EntryFor prodW shopsW createW)), n)
      ∧ ([7].map (u3EntryFor prodW shopsW createW))[0]? = some ⟨7, false, none⟩ := by
  obtain ⟨n, h1, _, h3⟩ := c8_mockup_never_propagates.2 [7] prodW fetchW shopsW createW
    (fun _ _ => .ok ()) (fun _ _ => rfl) (fun _ _ => rfl)
  exact ⟨n, h1, h3 0 7 rfl rfl⟩

/-! ## Claim C7 -/

/-- `firstIdxOf` over an append whose left part has no occurrence. -/
theorem firstIdxOf_append (c : Char) (l1 l2 : List Char) (h : ∀ x ∈ l1, x ≠ c) :
    firstIdxOf c (l1 ++ l2) = (firstIdxOf c l2).map (· + l1.length) := by
  induction l1 with
  | nil => cases h2 : firstIdxOf c l2 <;> simp [h2]
  | cons a l1 ih =>
    have ha : a ≠ c := h a (by simp)
    have ih2 := ih (fun x hx => h x (by simp [hx]))
    simp only [List.cons_append, firstIdxOf, if_neg ha, ih2]
    cases h2 : firstIdxOf c l2 with
    | none => simp [ih2, h2]
    | some x => simp [ih2, h2, Nat.add_assoc]

/-- When a text is prose (no opening brace) around a brace-delimited
chunk followed by prose with no closing brace, the greedy regex match
recovers exactly the chunk. -/
theorem jsonBraceMatch_embed (pre s post : String)
    (hpre : ∀ x ∈ pre.data, x ≠ '{')
    (hpost : ∀ x ∈ post.data, x ≠ '}')
    (hhead : s.data.head? = some '{')
    (hlast : s.data.getLast? = some '}')
    (hlen : 2 ≤ s.data.length) :
    jsonBraceMatch (pre ++ s ++ post) = some s := by
  have hdata : (pre ++ s ++ post).data = pre.data ++ s.data ++ post.data := by
    simp [String.data_append]
  have hfirst : firstIdxOf '{' ((pre ++ s ++ post).data) = some pre.data.length := by
    rw [hdata, List.append_assoc, firstIdxOf_append _ _ _ hpre]
    cases hS : s.data with
    | nil => rw [hS] at hhead; simp at hhead
    | cons a t =>
      have ha : a = '{' := by rw [hS] at hhead; simpa using hhead
      simp [ha, firstIdxOf]
  have hrev : s.data.reverse.head? = some '}' := by
    rw [List.head?_reverse]; exact hlast
  have hlastIdx : lastIdxOf '}' ((pre ++ s ++ post).data)
      = some (pre.data.length + s.data.length - 1) := by
    rw [lastIdxOf, hdata]
    have hrevdata : (pre.data ++ s.data ++ post.data).reverse
        = post.data.reverse ++ (s.data.reverse ++ pre.data.reverse) := by
      simp [List.reverse_append]
    have hpost2 : ∀ x ∈ post.data.reverse, x ≠ '}' := fun x hx =>
      hpost x (List.mem_reverse.mp hx)
    rw [hrevdata, firstIdxOf_append _ _ _ hpost2]
    cases hS : s.data.reverse with
    | nil => rw [hS] at hrev; simp at hrev
    | cons b u =>
      have hb : b = '}' := by rw [hS] at hrev; simpa using hrev
      have hu : s.data.length = u.length + 1 := by
        have h3 := congrArg List.length hS
        simpa [List.length_reverse] using h3
      simp only [hb, List.cons_append, firstIdxOf, eq_self_iff_true, if_true,
        Option.map_some', List.length_append, List.length_reverse]
      congr 1
      omega
  have hlt : pre.data.length < pre.data.length + s.data.length - 1 := by omega
  simp only [jsonBraceMatch, hfirst, hlastIdx]
  rw [if_pos hlt, hdata, List.append_assoc, List.drop_left]
  have harith : pre.data.length + s.data.length - 1 - pre.data.length + 1
      = s.data.length := by omega
  rw [harith, List.take_left s.data post.data]

/-- C7 counterexample: the claim asserts that on parse failure the first
top-level brace-delimited substring is extracted and re-parsed.  On the
text `x ("a": 1 object) y ("b": 2 object)` the code's greedy regex
instead matches from the first opening to the LAST closing brace; that
span does not parse, so the step fails, while the first top-level
substring does parse to the first object. -/
theorem c7_counterexample :
    extractGeneratedJson "x \x7b\"a\":1\x7d y \x7b\"b\":2\x7d" = .error .parseFailed
    ∧ jsonBraceMatch "x \x7b\"a\":1\x7d y \x7b\"b\":2\x7d"
        = some "\x7b\"a\":1\x7d y \x7b\"b\":2\x7d"
    ∧ (firstTopLevelBraces "x \x7b\"a\":1\x7d y \x7b\"b\":2\x7d".data).map String.mk
        = some "\x7b\"a\":1\x7d"
    ∧ jsonParse "\x7b\"a\":1\x7d" = some (.obj [("a", .num 1)]) := ⟨rfl, rfl, rfl, rfl⟩

/-- C7 amended: the fallback extracts the substring from the first
opening brace to the LAST closing brace (greedy `text.match`), which
coincides with the first top-level brace-delimited substring whenever
the text is prose around a single brace-delimited chunk with no later
closing brace; such prose with one embedded JSON object still yields
that object; with no brace-delimited substring at all the step fails
with "OpenAI did not return JSON.", and when the matched substring does
not parse the SyntaxError of the second `JSON.parse` propagates. -/
theorem c7_amended :
    (∀ (pre s post : String) (v : Json),
        jsonParse (pre ++ s ++ post) = none →
        (∀ x ∈ pre.data, x ≠ '{') →
        (∀ x ∈ post.data, x ≠ '}') →
        s.data.head? = some '{' →
        s.data.getLast? = some '}' →
        2 ≤ s.data.length →
        jsonParse s = some v →
        extractGeneratedJson (pre ++ s ++ post) = .ok v)
    ∧ (∀ text : String, jsonParse text = none → jsonBraceMatch text = none →
        extractGeneratedJson text = .error .notJson)
    ∧ extractGeneratedJson "Sure! Here is the JSON: \x7b\"title\": \"X\"\x7d"
        = .ok (.obj [("title", .str "X")]) := by
  refine ⟨?_, ?_, rfl⟩
  · intro pre s post v hwhole hpre hpost hhead hlast hlen hs
    simp only [extractGeneratedJson, hwhole,
      jsonBraceMatch_embed pre s post hpre hpost hhead hlast hlen, hs]
  · intro text h1 h2
    simp only [extractGeneratedJson, h1, h2]

/-- Witness for `c7_amended`: prose around a single title object parses
to that object through the fallback. -/
theorem c7_amended_witness :
    extractGeneratedJson ("Sure: " ++ "\x7b\"title\": \"X\"\x7d" ++ " hope that helps.")
      = .ok (.obj [("title", .str "X")]) :=
  c7_amended.1 "Sure: " "\x7b\"title\": \"X\"\x7d" " hope that helps."
    (.obj [("title", .str "X")]) rfl (by decide) (by decide) rfl rfl (by decide) rfl

end ScaryFast
